import Mathlib

/-!
Verification of the Journal Cover AI repository.

Shallow embedding of the TypeScript sources:
  - `src/types.ts`: enums and records of the data model.
  - `src/unnamed/part_000` (the App component): the generation/refinement
    session state machine (`handleGenerate`, `handleRefine`, `handleReset`).
  - `src/services/geminiService.ts`: the pipeline stages
    (`generateVisualDescription`, `generateCoverImage`, `refineCoverImage`)
    and the DOI normalization of `fetchDoiMetadata`.
  - `src/components/ResultDisplay.tsx`: metadata merge, font sizing,
    drag handlers and the PDF export mode handling.

JavaScript strings are embedded as Lean `String`; `toUpperCase`, truthiness
of strings (`s || fb`) and anchored-at-start regex replacement are embedded
explicitly below.  Asynchronous backend calls are modelled by passing the
outcome of the awaited call (`Except` of the thrown message / the parsed
response) as an argument; the states a handler passes through between its
`await` points are collected in a trace list.
-/

namespace JournalCoverAI

/-- JS `s || fb` on strings: the empty string is falsy. -/
def jsOrElse (s fb : String) : String := if s = "" then fb else s

/-- JS `String.prototype.toUpperCase` (character-wise upper-casing). -/
def jsToUpperCase (s : String) : String := String.mk (s.data.map Char.toUpper)

/- ---------------------------------------------------------------- -/
/- src/types.ts                                                      -/
/- ---------------------------------------------------------------- -/

/-- Embeds `CoverStyle` enum from `src/types.ts`. -/
inductive CoverStyle
  | realistic
  | abstract3d
  | minimalist
  | surreal
  | digitalArt
deriving DecidableEq

/-- Embeds `AspectRatio` enum from `src/types.ts` (renamed: `square`=1:1,
`portrait`=3:4, `landscape`=4:3, `wide`=16:9). -/
inductive ImageAspect
  | square
  | portrait
  | landscape
  | wide
deriving DecidableEq

/-- Embeds `GenModel` enum from `src/types.ts`. -/
inductive GenModel
  | flashImage
  | proImage
deriving DecidableEq

/-- Embeds `GenerationConfig` from `src/types.ts` (the `aspectRatio` field is
named `imageAspect` here). -/
structure GenerationConfig where
  model : GenModel
  style : CoverStyle
  imageAspect : ImageAspect
deriving DecidableEq

/-- Embeds `ArticleData` from `src/types.ts`; optional fields are `Option`. -/
structure ArticleData where
  title : String
  content : String
  doi : Option String := none
  authors : Option String := none
  journalName : Option String := none
deriving DecidableEq

/-- Embeds `GenerationStatus` from `src/types.ts`. -/
inductive GenerationStatus
  | idle
  | analyzing
  | generating
  | refining
  | completed
  | error
deriving DecidableEq

/- ---------------------------------------------------------------- -/
/- src/unnamed/part_000: the App session state machine               -/
/- ---------------------------------------------------------------- -/

/-- The six `useState` cells of the App component. -/
structure AppState where
  status : GenerationStatus
  currentData : Option ArticleData
  currentConfig : Option GenerationConfig
  generatedImage : Option String
  generatedPrompt : Option String
  errorMessage : Option String
deriving DecidableEq

/-- The state at app start: every cell at its `useState` initial value. -/
def initialAppState : AppState :=
  { status := .idle
    currentData := none
    currentConfig := none
    generatedImage := none
    generatedPrompt := none
    errorMessage := none }

/-- Fallback message of `handleGenerate`'s catch block. -/
def generationFallbackMessage : String :=
  "An unexpected error occurred during generation."

/-- Embeds `handleGenerate(data, config)`: the states the session passes through,
at the `await` boundaries.  `descr` is the outcome of the awaited
`generateVisualDescription` call, `image` of the awaited
`generateCoverImage` call (only reached when `descr` succeeded); a thrown
error is its `message` string. -/
def handleGenerateTrace (data : ArticleData) (config : GenerationConfig)
    (descr : Except String String) (image : Except String String)
    (_s : AppState) : List AppState :=
  let s1 : AppState :=
    { status := .analyzing
      errorMessage := none
      generatedImage := none
      generatedPrompt := none
      currentData := some data
      currentConfig := some config }
  match descr with
  | .error e =>
      [s1, { s1 with
               status := .error
               errorMessage := some (jsOrElse e generationFallbackMessage) }]
  | .ok visualPrompt =>
      let s2 := { s1 with generatedPrompt := some visualPrompt, status := .generating }
      match image with
      | .error e =>
          [s1, s2, { s2 with
                       status := .error
                       errorMessage := some (jsOrElse e generationFallbackMessage) }]
      | .ok imageUrl =>
          [s1, s2, { s2 with generatedImage := some imageUrl, status := .completed }]

/-- Embeds `handleRefine(instruction)`: trace of session states.  The guard
`if (!generatedImage || !currentConfig) return;` yields the empty trace
(an empty image string is falsy in JS).  `refined` is the outcome of the
awaited `refineCoverImage` call. -/
def handleRefineTrace (_instruction : String) (refined : Except String String)
    (s : AppState) : List AppState :=
  match s.generatedImage, s.currentConfig with
  | some img, some _ =>
      if img = "" then []
      else
        let s1 := { s with status := GenerationStatus.refining, errorMessage := none }
        match refined with
        | .ok refinedImageUrl =>
            [s1, { s1 with generatedImage := some refinedImageUrl,
                           status := GenerationStatus.completed }]
        | .error e =>
            [s1, { s1 with status := GenerationStatus.error,
                           errorMessage := some ("Failed to refine image. " ++ e) }]
  | _, _ => []

/-- Embeds `handleReset()`: status idle, image/prompt/data/config cleared
(`errorMessage` is not touched). -/
def handleReset (s : AppState) : AppState :=
  { s with status := GenerationStatus.idle
           generatedImage := none
           generatedPrompt := none
           currentData := none
           currentConfig := none }

/-- Session states reachable from app start by any sequence of
`handleGenerate`, `handleRefine` and `handleReset` invocations, with
arbitrary backend outcomes, observing every intermediate state at the
`await` boundaries. -/
inductive Reachable : AppState → Prop
  | init : Reachable initialAppState
  | generate {s t : AppState} (data : ArticleData) (config : GenerationConfig)
      (descr image : Except String String) :
      Reachable s → t ∈ handleGenerateTrace data config descr image s → Reachable t
  | refine {s t : AppState} (instruction : String) (refined : Except String String) :
      Reachable s → t ∈ handleRefineTrace instruction refined s → Reachable t
  | reset {s : AppState} : Reachable s → Reachable (handleReset s)

/- ---------------------------------------------------------------- -/
/- src/services/geminiService.ts                                     -/
/- ---------------------------------------------------------------- -/

/-- An `inlineData` payload of a response part. -/
structure InlineData where
  mimeType : String
  data : String
deriving DecidableEq

/-- One part of a candidate's content: optional text, optional inline image. -/
structure ResponsePart where
  text : Option String := none
  inlineData : Option InlineData := none
deriving DecidableEq

/-- A candidate's `content`; `parts` may be absent. -/
structure ResponseContent where
  parts : Option (List ResponsePart)
deriving DecidableEq

/-- One candidate of an image-generation response; `content` may be absent. -/
structure ResponseCandidate where
  content : Option ResponseContent
deriving DecidableEq

/-- An image-generation backend response: the optional `candidates` list. -/
structure ImageGenResponse where
  candidates : Option (List ResponseCandidate)
deriving DecidableEq

/-- A text-generation backend response: the optional aggregated `text`. -/
structure TextGenResponse where
  text : Option String
deriving DecidableEq

/-- How the image-extraction code can fail: the explicit
`throw new Error("No image data found...")` (`noImageData`), or the
JS `TypeError` raised by reading a property of `undefined` when the
candidates list is empty or a candidate has no `content` (`jsTypeError`). -/
inductive ImageGenError
  | noImageData
  | jsTypeError
deriving DecidableEq

/-- The fallback of `generateVisualDescription` on empty backend text. -/
def describeFallback : String := "A scientific abstract representation."

/-- Embeds `generateVisualDescription`: `call` is the outcome of the awaited
`ai.models.generateContent` call (transport/auth errors are `.error`);
on success it returns `response.text || fallback`. -/
def generateVisualDescription (call : Except String TextGenResponse) :
    Except String String :=
  match call with
  | .error e => .error e
  | .ok response =>
      .ok (match response.text with
           | none => describeFallback
           | some t => jsOrElse t describeFallback)

/-- First part carrying `inlineData` in a parts list (the `for` loop of
`generateCoverImage` / `refineCoverImage`). -/
def findInlinePart : List ResponsePart → Option InlineData
  | [] => none
  | p :: ps =>
      match p.inlineData with
      | some d => some d
      | none => findInlinePart ps

/-- The data-URL head text that `generateCoverImage` and
`refineCoverImage` prepend to the inline payload. -/
def pngDataUrlHead : String := "data:image/png;base64,"

/-- Embeds `generateCoverImage`, after the awaited backend call returned
`response`: walk `response.candidates[0].content.parts` for the first
inline payload and wrap it as a data URL, else throw. -/
def generateCoverImage (response : ImageGenResponse) : Except ImageGenError String :=
  match response.candidates with
  | none => .error .noImageData
  | some [] => .error .jsTypeError
  | some (c :: _) =>
      match c.content with
      | none => .error .jsTypeError
      | some content =>
          match content.parts with
          | none => .error .noImageData
          | some parts =>
              match findInlinePart parts with
              | some part => .ok (pngDataUrlHead ++ part.data)
              | none => .error .noImageData

/-- The anchored regex replacement
`currentImageBase64.replace(/^data:image\x5c/(png|jpeg|webp);base64,/, "")`
of `refineCoverImage`: remove the one possible matching head. -/
def stripImageDataUrl (s : String) : String :=
  if "data:image/png;base64,".data.isPrefixOf s.data then
    String.mk (s.data.drop "data:image/png;base64,".data.length)
  else if "data:image/jpeg;base64,".data.isPrefixOf s.data then
    String.mk (s.data.drop "data:image/jpeg;base64,".data.length)
  else if "data:image/webp;base64,".data.isPrefixOf s.data then
    String.mk (s.data.drop "data:image/webp;base64,".data.length)
  else s

/-- Embeds `refineCoverImage`, after the awaited backend call returned
`response`: the current image's data-URL head is stripped for the request
payload; the response is scanned exactly as in `generateCoverImage`. -/
def refineCoverImage (currentImageBase64 : String) (_instruction : String)
    (response : ImageGenResponse) : Except ImageGenError String :=
  let _base64Data := stripImageDataUrl currentImageBase64
  match response.candidates with
  | none => .error .noImageData
  | some [] => .error .jsTypeError
  | some (c :: _) =>
      match c.content with
      | none => .error .jsTypeError
      | some content =>
          match content.parts with
          | none => .error .noImageData
          | some parts =>
              match findInlinePart parts with
              | some part => .ok (pngDataUrlHead ++ part.data)
              | none => .error .noImageData

/-- The resolver heads removable by the anchored regex
`doi.replace(/^(https?:\x5c/\x5c/)?(dx\x5c.)?doi\x5c.org\x5c//, "")`; at
most one of them can head a given string. -/
def resolverHeads : List String :=
  ["https://dx.doi.org/", "http://dx.doi.org/",
   "https://doi.org/", "http://doi.org/",
   "dx.doi.org/", "doi.org/"]

/-- The DOI normalization at the top of `fetchDoiMetadata`. -/
def cleanDoi (doi : String) : String :=
  match resolverHeads.find? (fun h => h.data.isPrefixOf doi.data) with
  | some h => String.mk (doi.data.drop h.data.length)
  | none => doi

/- ---------------------------------------------------------------- -/
/- src/components/ResultDisplay.tsx                                  -/
/- ---------------------------------------------------------------- -/

/-- The editable `CoverMetadata` record of `ResultDisplay`. -/
structure CoverMetadata where
  journalName : String
  date : String
  volumeInfo : String
  website : String
  tag : String
  title : String
  authors : String
  footer : String
  doi : String
deriving DecidableEq

/-- The metadata-sync `useEffect`: merge an incoming `ArticleData` into the
current `CoverMetadata`, field by field with JS `||` (`journalName`
upper-cased before the test). -/
def syncMetadata (prev : CoverMetadata) (articleData : ArticleData) : CoverMetadata :=
  { prev with
    journalName :=
      match articleData.journalName with
      | some s => jsOrElse (jsToUpperCase s) prev.journalName
      | none => prev.journalName
    title := jsOrElse articleData.title prev.title
    authors :=
      match articleData.authors with
      | some s => jsOrElse s prev.authors
      | none => prev.authors
    doi :=
      match articleData.doi with
      | some s => jsOrElse s prev.doi
      | none => prev.doi }

/-- The `FONT_SIZES` scale: 15 Tailwind class strings, index 0 to 14. -/
def FONT_SIZES : List String :=
  ["text-[8px] md:text-[10px]",
   "text-[10px] md:text-xs",
   "text-xs md:text-sm",
   "text-sm md:text-base",
   "text-base md:text-lg",
   "text-lg md:text-xl",
   "text-xl md:text-2xl",
   "text-2xl md:text-3xl",
   "text-3xl md:text-4xl",
   "text-4xl md:text-5xl",
   "text-5xl md:text-6xl",
   "text-6xl md:text-7xl",
   "text-7xl md:text-8xl",
   "text-8xl md:text-9xl",
   "text-9xl md:text-[10rem]"]

/-- Embeds `getResponsiveSize(baseIndex, field)`.  The `fontOffsets` record is a
total map (absent entries are 0, matching `fontOffsets[field] || 0`);
`FONT_SIZES[i]` out of range is JS `undefined`, hence `Option`. -/
def getResponsiveSize (fontOffsets : String → Int) (baseIndex : Nat)
    (field : Option String) : Option String :=
  match field with
  | none => FONT_SIZES.get? baseIndex
  | some f =>
      let offset := fontOffsets f
      let index := max 0 (min ((FONT_SIZES.length : Int) - 1) ((baseIndex : Int) + offset))
      FONT_SIZES.get? index.toNat

/-- Embeds `getJournalBaseIndex(len)`. -/
def getJournalBaseIndex (len : Nat) : Nat :=
  if len < 10 then 12 else if len < 20 then 11 else if len < 30 then 10 else 9

/-- Embeds `getTitleBaseIndex(len)`. -/
def getTitleBaseIndex (len : Nat) : Nat :=
  if len < 30 then 8 else if len < 60 then 7 else if len < 100 then 6 else 5

/-- Embeds `getAuthorsBaseIndex(len)`. -/
def getAuthorsBaseIndex (len : Nat) : Nat :=
  if len < 50 then 4 else if len < 100 then 2 else 1

/-- Embeds `handleFontSizeChange(delta)` with focus on `activeField`: bump only
that field's offset (`(prev[activeField] || 0) + delta`). -/
def handleFontSizeChange (fontOffsets : String → Int) (activeField : String)
    (delta : Int) : String → Int :=
  fun f => if f = activeField then fontOffsets activeField + delta else fontOffsets f

/-- A draggable group position, in percent of the canvas (`x`,`y`). -/
structure LayoutPos where
  x : ℚ
  y : ℚ
deriving DecidableEq

/-- Embeds `dragStartRef.current`: pointer origin and group origin captured at
mouse-down. -/
structure DragStart where
  mouseX : ℚ
  mouseY : ℚ
  startX : ℚ
  startY : ℚ
deriving DecidableEq

/-- The canvas bounding rectangle. -/
structure CanvasRect where
  width : ℚ
  height : ℚ
deriving DecidableEq

/-- The element-level `handleMouseMove`: delta in canvas-relative percent
added to the captured origin, then clamped to [-10, 100]. -/
def handleMouseMove (rect : CanvasRect) (drag : DragStart)
    (clientX clientY : ℚ) : LayoutPos :=
  let deltaX := clientX - drag.mouseX
  let deltaY := clientY - drag.mouseY
  let deltaXPercent := deltaX / rect.width * 100
  let deltaYPercent := deltaY / rect.height * 100
  let newX := drag.startX + deltaXPercent
  let newY := drag.startY + deltaYPercent
  { x := max (-10) (min 100 newX), y := max (-10) (min 100 newY) }

/-- The window-level `handleWindowMouseMove` registered while dragging:
same delta computation, but the result is stored without clamping. -/
def handleWindowMouseMove (rect : CanvasRect) (drag : DragStart)
    (clientX clientY : ℚ) : LayoutPos :=
  let deltaX := clientX - drag.mouseX
  let deltaY := clientY - drag.mouseY
  let deltaXPercent := deltaX / rect.width * 100
  let deltaYPercent := deltaY / rect.height * 100
  let newX := drag.startX + deltaXPercent
  let newY := drag.startY + deltaYPercent
  { x := newX, y := newY }

/-- The interaction mode of the editor. -/
inductive EditorMode
  | edit
  | layout
deriving DecidableEq

/-- The editor state cells touched by `handleDownloadPdf`. -/
structure ExportUIState where
  mode : EditorMode
  isExporting : Bool
  activeField : Option String
deriving DecidableEq

/-- Embeds `handleDownloadPdf()`: early-return when the container ref is null;
otherwise set the exporting flag, force edit mode and clear focus for the
capture, then — whether the capture/encoding succeeded or threw (alert
only) — restore the saved mode and clear the flag in `finally`. -/
def handleDownloadPdf (containerPresent : Bool) (captureOk : Bool)
    (s : ExportUIState) : ExportUIState :=
  if !containerPresent then s
  else
    let prevMode := s.mode
    let s1 : ExportUIState := { mode := .edit, isExporting := true, activeField := none }
    let s2 := if captureOk then s1 else s1
    { s2 with mode := prevMode, isExporting := false }

/-- A sample article record used for concrete runs. -/
def sampleArticle : ArticleData :=
  { title := "T", content := "C" }

/-- A sample generation config used for concrete runs. -/
def sampleConfig : GenerationConfig :=
  { model := .flashImage, style := .realistic, imageAspect := .portrait }

/-- The session after a fully successful `handleGenerate` run from start. -/
def sampleCompletedState : AppState :=
  { status := .completed
    currentData := some sampleArticle
    currentConfig := some sampleConfig
    generatedImage := some "img"
    generatedPrompt := some "p"
    errorMessage := none }

/-- The session after `handleRefine` fails on `sampleCompletedState`. -/
def sampleRefineErrorState : AppState :=
  { status := .error
    currentData := some sampleArticle
    currentConfig := some sampleConfig
    generatedImage := some "img"
    generatedPrompt := some "p"
    errorMessage := some "Failed to refine image. boom" }

/-- A concrete inline image payload. -/
def payloadInline : InlineData := { mimeType := "image/png", data := "PAYLOAD" }

/-- A candidate whose single part is text only. -/
def textOnlyCandidate : ResponseCandidate :=
  { content := some { parts := some [{ text := some "no image" }] } }

/-- A candidate whose single part carries `payloadInline`. -/
def inlineCandidate : ResponseCandidate :=
  { content := some { parts := some [{ inlineData := some payloadInline }] } }

/-- A backend response whose first candidate has only a text part while its
second candidate carries an inline image. -/
def twoCandidateResponse : ImageGenResponse :=
  { candidates := some [textOnlyCandidate, inlineCandidate] }

/-- A backend response whose only candidate has no inline image part. -/
def noInlineResponse : ImageGenResponse :=
  { candidates := some [textOnlyCandidate] }

/-- A backend response whose only candidate carries an inline image. -/
def okImageResponse : ImageGenResponse :=
  { candidates := some [inlineCandidate] }

end JournalCoverAI

namespace JournalCoverAI

theorem reachable_sampleCompletedState : Reachable sampleCompletedState := by
  have h := Reachable.generate (s := initialAppState) (t := sampleCompletedState)
    sampleArticle sampleConfig (.ok "p") (.ok "img") .init
  apply h
  decide

theorem reachable_sampleRefineErrorState : Reachable sampleRefineErrorState := by
  have h := Reachable.refine (s := sampleCompletedState) (t := sampleRefineErrorState)
    "fix" (.error "boom") reachable_sampleCompletedState
  apply h
  decide

/-- C1, counterexample: a failed refinement reaches a session whose status
is `error` while `generatedImage` is still non-null, so the claim that in
status `error` the image is null fails on the code. -/
theorem C1_counterexample :
    Reachable sampleRefineErrorState ∧
    sampleRefineErrorState.status = GenerationStatus.error ∧
    sampleRefineErrorState.generatedImage.isSome = true ∧
    sampleRefineErrorState.status ≠ GenerationStatus.completed ∧
    sampleRefineErrorState.status ≠ GenerationStatus.refining :=
  ⟨reachable_sampleRefineErrorState, by decide, by decide, by decide, by decide⟩

theorem mem_generateTrace_status {t : AppState} (data : ArticleData)
    (config : GenerationConfig) (descr image : Except String String) (s : AppState)
    (ht : t ∈ handleGenerateTrace data config descr image s)
    (himg : t.generatedImage.isSome = true) :
    t.status = GenerationStatus.completed ∨ t.status = GenerationStatus.refining ∨
      t.status = GenerationStatus.error := by
  rcases descr with e | p
  · simp [handleGenerateTrace] at ht
    rcases ht with rfl | rfl <;> simp_all
  · rcases image with e | img
    · simp [handleGenerateTrace] at ht
      rcases ht with rfl | rfl | rfl <;> simp_all
    · simp [handleGenerateTrace] at ht
      rcases ht with rfl | rfl | rfl <;> simp_all

theorem mem_refineTrace_status {t : AppState} (instruction : String)
    (refined : Except String String) (s : AppState)
    (ht : t ∈ handleRefineTrace instruction refined s) :
    t.status = GenerationStatus.refining ∨ t.status = GenerationStatus.completed ∨
      t.status = GenerationStatus.error := by
  rcases hgi : s.generatedImage with _ | img <;>
    rcases hcc : s.currentConfig with _ | cfg <;>
    simp [handleRefineTrace, hgi, hcc] at ht
  by_cases hemp : img = ""
  · simp [hemp] at ht
  · rcases refined with e | r <;> simp [hemp] at ht <;>
      rcases ht with rfl | rfl <;> simp_all

/-- C1 (amended): in every reachable session state, `generatedImage` is
non-null only when the status is `completed`, `refining`, or `error` (the
latter arising from a failed refinement, which preserves the image); in
`idle`, `analyzing` and `generating` the image is null. -/
theorem C1_holds (s : AppState) (h : Reachable s)
    (himg : s.generatedImage.isSome = true) :
    s.status = GenerationStatus.completed ∨ s.status = GenerationStatus.refining ∨
      s.status = GenerationStatus.error := by
  revert himg
  induction h with
  | init => intro himg; simp [initialAppState] at himg
  | generate data config descr image hs ht ih =>
      intro himg
      exact mem_generateTrace_status data config descr image _ ht himg
  | refine instruction refined hs ht ih =>
      intro himg
      rcases mem_refineTrace_status instruction refined _ ht with h1 | h1 | h1 <;>
        simp [h1]
  | reset hs ih =>
      intro himg
      simp [handleReset] at himg

/-- C1 witness: the amended invariant applied to a concrete reachable
completed session. -/
theorem C1_witness :
    sampleCompletedState.generatedImage.isSome = true ∧
    (sampleCompletedState.status = GenerationStatus.completed ∨
      sampleCompletedState.status = GenerationStatus.refining ∨
      sampleCompletedState.status = GenerationStatus.error) :=
  ⟨by decide, C1_holds sampleCompletedState reachable_sampleCompletedState (by decide)⟩

/-- C2: on a completed session with a (non-empty, hence truthy) image, a
failed `handleRefine` ends with status `error` and the image untouched. -/
theorem C2_holds (s : AppState) (img instruction e : String)
    (_hst : s.status = GenerationStatus.completed)
    (himg : s.generatedImage = some img) (hne : img ≠ "")
    (hcfg : s.currentConfig.isSome = true) :
    ((handleRefineTrace instruction (.error e) s).getLastD s).status =
      GenerationStatus.error ∧
    ((handleRefineTrace instruction (.error e) s).getLastD s).generatedImage =
      some img := by
  rcases hc : s.currentConfig with _ | cfg
  · rw [hc] at hcfg; simp at hcfg
  · simp [handleRefineTrace, himg, hc, hne, List.getLastD]

/-- C2 witness: the theorem at the concrete completed session. -/
theorem C2_witness :
    sampleCompletedState.status = GenerationStatus.completed ∧
    sampleCompletedState.generatedImage = some "img" ∧
    "img" ≠ "" ∧
    sampleCompletedState.currentConfig.isSome = true ∧
    ((handleRefineTrace "fix" (.error "boom") sampleCompletedState).getLastD
        sampleCompletedState).status = GenerationStatus.error ∧
    ((handleRefineTrace "fix" (.error "boom") sampleCompletedState).getLastD
        sampleCompletedState).generatedImage = some "img" := by
  refine ⟨by decide, by decide, by decide, by decide, ?_, ?_⟩
  · exact (C2_holds sampleCompletedState "img" "fix" "boom"
      (by decide) (by decide) (by decide) (by decide)).1
  · exact (C2_holds sampleCompletedState "img" "fix" "boom"
      (by decide) (by decide) (by decide) (by decide)).2

theorem findInlinePart_eq_none_iff (parts : List ResponsePart) :
    findInlinePart parts = none ↔ ∀ pt ∈ parts, pt.inlineData = none := by
  induction parts with
  | nil => simp [findInlinePart]
  | cons p ps ih =>
      cases hd : p.inlineData <;> simp [findInlinePart, hd, ih]

/-- C3, counterexample: the code inspects only the first candidate, so it
fails with `NoImageDataError` on a response that does carry an inline image
part in its second candidate — refuting "if and only if no inline image
part is present in any candidate". -/
theorem C3_counterexample :
    generateCoverImage twoCandidateResponse = .error .noImageData ∧
    ((twoCandidateResponse.candidates.getD []).any fun c =>
      ((c.content.getD { parts := none }).parts.getD []).any fun pt =>
        pt.inlineData.isSome) = true := by
  exact ⟨rfl, rfl⟩

/-- C3 (amended): `generateCoverImage` fails with `NoImageDataError` iff no
inline image part is present in the first candidate (in particular when the
candidates list is absent); on a first-generation failure of the image
stage the session status becomes `error` and `generatedImage` stays null. -/
theorem C3_holds (response : ImageGenResponse) :
    (response.candidates = none →
      generateCoverImage response = .error .noImageData) ∧
    (∀ (c : ResponseCandidate) (cs : List ResponseCandidate) (ct : ResponseContent),
      response.candidates = some (c :: cs) → c.content = some ct →
      (generateCoverImage response = .error .noImageData ↔
        ∀ pt ∈ ct.parts.getD [], pt.inlineData = none)) ∧
    (∀ (data : ArticleData) (config : GenerationConfig) (p e : String) (s : AppState),
      ((handleGenerateTrace data config (.ok p) (.error e) s).getLastD s).status =
        GenerationStatus.error ∧
      ((handleGenerateTrace data config (.ok p) (.error e) s).getLastD s).generatedImage
        = none) := by
  refine ⟨?_, ?_, ?_⟩
  · intro hc
    simp [generateCoverImage, hc]
  · intro c cs ct hc hct
    rcases hp : ct.parts with _ | parts
    · simp [generateCoverImage, hc, hct, hp]
    · rcases hfi : findInlinePart parts with _ | d
      · simp only [generateCoverImage, hc, hct, hp, hfi, Option.getD_some]
        exact iff_of_true trivial ((findInlinePart_eq_none_iff parts).mp hfi)
      · simp only [generateCoverImage, hc, hct, hp, hfi, Option.getD_some]
        refine iff_of_false (by simp) fun hall => ?_
        have hnone := (findInlinePart_eq_none_iff parts).mpr hall
        rw [hfi] at hnone
        exact Option.noConfusion hnone
  · intro data config p e s
    simp [handleGenerateTrace, List.getLastD]

/-- C3 witness: the amended theorem at a concrete imageless response and a
concrete failed first generation. -/
theorem C3_witness :
    (generateCoverImage noInlineResponse = .error .noImageData) ∧
    ((handleGenerateTrace sampleArticle sampleConfig (.ok "p")
        (.error "No image data found in response.") initialAppState).getLastD
        initialAppState).status = GenerationStatus.error ∧
    ((handleGenerateTrace sampleArticle sampleConfig (.ok "p")
        (.error "No image data found in response.") initialAppState).getLastD
        initialAppState).generatedImage = none := by
  refine ⟨?_, ?_, ?_⟩
  · exact ((C3_holds noInlineResponse).2.1 textOnlyCandidate []
      { parts := some [{ text := some "no image" }] } rfl rfl).mpr (by decide)
  · exact ((C3_holds noInlineResponse).2.2 sampleArticle sampleConfig "p"
      "No image data found in response." initialAppState).1
  · exact ((C3_holds noInlineResponse).2.2 sampleArticle sampleConfig "p"
      "No image data found in response." initialAppState).2

/-- C4: the claim is right and the code is wrong.  The element-level
`handleMouseMove` clamps the dragged position to [-10, 100], but the
window-level `handleWindowMouseMove` registered during a drag stores the
unclamped value: a 200-pixel rightward window-level move in a 100-pixel
canvas starting from x = 5 stores x = 205, outside [-10, 100], while the
element-level handler stores 100 on the same input. -/
theorem C4_holds :
    (handleWindowMouseMove { width := 100, height := 100 }
      { mouseX := 0, mouseY := 0, startX := 5, startY := 5 } 200 0).x = 205 ∧
    ¬ ((handleWindowMouseMove { width := 100, height := 100 }
      { mouseX := 0, mouseY := 0, startX := 5, startY := 5 } 200 0).x ≤ 100) ∧
    (handleMouseMove { width := 100, height := 100 }
      { mouseX := 0, mouseY := 0, startX := 5, startY := 5 } 200 0).x = 100 := by
  refine ⟨?_, ?_, ?_⟩ <;> norm_num [handleWindowMouseMove, handleMouseMove]

theorem jsToUpperCase_ne_empty {s : String} (h : s ≠ "") : jsToUpperCase s ≠ "" := by
  intro hc
  apply h
  cases s with
  | mk data =>
      have hmap : data.map Char.toUpper = [] := by
        have := congrArg String.data hc
        simpa [jsToUpperCase] using this
      have : data = [] := List.map_eq_nil_iff.mp hmap
      rw [this]

/-- C5: the metadata-sync merge keeps every field of M whose incoming value
in R is absent or empty, overwrites `journalName` (upper-cased), `title`,
`authors` and `doi` when the incoming value is non-empty, and never touches
the other five fields of M. -/
theorem C5_holds (M : CoverMetadata) (R : ArticleData) :
    (syncMetadata M R).date = M.date ∧
    (syncMetadata M R).volumeInfo = M.volumeInfo ∧
    (syncMetadata M R).website = M.website ∧
    (syncMetadata M R).tag = M.tag ∧
    (syncMetadata M R).footer = M.footer ∧
    ((R.journalName = none ∨ R.journalName = some "") →
      (syncMetadata M R).journalName = M.journalName) ∧
    (∀ s, R.journalName = some s → s ≠ "" →
      (syncMetadata M R).journalName = jsToUpperCase s) ∧
    (R.title = "" → (syncMetadata M R).title = M.title) ∧
    (R.title ≠ "" → (syncMetadata M R).title = R.title) ∧
    ((R.authors = none ∨ R.authors = some "") →
      (syncMetadata M R).authors = M.authors) ∧
    (∀ s, R.authors = some s → s ≠ "" → (syncMetadata M R).authors = s) ∧
    ((R.doi = none ∨ R.doi = some "") → (syncMetadata M R).doi = M.doi) ∧
    (∀ s, R.doi = some s → s ≠ "" → (syncMetadata M R).doi = s) := by
  refine ⟨rfl, rfl, rfl, rfl, rfl, ?_, ?_, ?_, ?_, ?_, ?_, ?_, ?_⟩
  · rintro (hj | hj) <;> simp [syncMetadata, hj, jsOrElse, jsToUpperCase]
  · intro s hj hs
    simp [syncMetadata, hj, jsOrElse, jsToUpperCase_ne_empty hs]
  · intro h; simp [syncMetadata, jsOrElse, h]
  · intro h; simp [syncMetadata, jsOrElse, h]
  · rintro (ha | ha) <;> simp [syncMetadata, ha, jsOrElse]
  · intro s ha hs; simp [syncMetadata, ha, jsOrElse, hs]
  · rintro (hd | hd) <;> simp [syncMetadata, hd, jsOrElse]
  · intro s hd hs; simp [syncMetadata, hd, jsOrElse, hs]

/-- C5 witness: the merge at a concrete metadata state and a record with a
non-empty journal name and title, empty authors, absent doi. -/
theorem C5_witness :
    (({ title := "New Title", content := "C", authors := some "",
        journalName := some "nature" } : ArticleData).journalName = some "nature") ∧
    ("nature" ≠ "") ∧
    (syncMetadata
      { journalName := "OLD", date := "D", volumeInfo := "V", website := "W",
        tag := "G", title := "Old Title", authors := "A", footer := "F",
        doi := "10.1/old" }
      { title := "New Title", content := "C", authors := some "",
        journalName := some "nature" }).journalName = jsToUpperCase "nature" := by
  refine ⟨rfl, by decide, ?_⟩
  exact (C5_holds
    { journalName := "OLD", date := "D", volumeInfo := "V", website := "W",
      tag := "G", title := "Old Title", authors := "A", footer := "F",
      doi := "10.1/old" }
    { title := "New Title", content := "C", authors := some "",
      journalName := some "nature" }).2.2.2.2.2.2.1 "nature" rfl (by decide)

/-- C6: the effective font-size index is clamp(base + offset, 0, 14), and
bumping the offset of one focused field leaves every other field's computed
size unchanged. -/
theorem C6_holds (fontOffsets : String → Int) (baseIndex : Nat) (f g : String)
    (delta : Int) (hfg : g ≠ f) :
    getResponsiveSize fontOffsets baseIndex (some f) =
      FONT_SIZES.get? (max 0 (min 14 ((baseIndex : Int) + fontOffsets f))).toNat ∧
    getResponsiveSize (handleFontSizeChange fontOffsets f delta) baseIndex (some g) =
      getResponsiveSize fontOffsets baseIndex (some g) := by
  constructor
  · have hlen : ((FONT_SIZES.length : Int) - 1) = 14 := by decide
    simp only [getResponsiveSize, hlen]
  · simp [getResponsiveSize, handleFontSizeChange, hfg]

/-- C6 witness: the theorem at concrete offsets and the `title`/`authors`
field pair. -/
theorem C6_witness :
    ("authors" ≠ "title") ∧
    (getResponsiveSize (fun _ => 0) 8 (some "title") =
      FONT_SIZES.get? (max 0 (min 14 ((8 : Int) + (fun _ : String => 0) "title"))).toNat ∧
     getResponsiveSize (handleFontSizeChange (fun _ => 0) "title" 1) 8 (some "authors") =
      getResponsiveSize (fun _ => 0) 8 (some "authors")) :=
  ⟨by decide, C6_holds (fun _ => 0) 8 "title" "authors" 1 (by decide)⟩

/-- C7: for a DOI body X that does not itself start with a resolver head,
the normalization maps `https://doi.org/X`, `http://dx.doi.org/X` and bare
`X` all to exactly `X`. -/
theorem C7_holds (X : String)
    (h : ∀ hd ∈ resolverHeads, hd.data.isPrefixOf X.data = false) :
    cleanDoi ("https://doi.org/" ++ X) = X ∧
    cleanDoi ("http://dx.doi.org/" ++ X) = X ∧
    cleanDoi X = X := by
  refine ⟨?_, ?_, ?_⟩
  · have hfind : resolverHeads.find?
        (fun hd => hd.data.isPrefixOf ("https://doi.org/" ++ X).data) =
        some "https://doi.org/" := by
      simp [resolverHeads, List.find?, List.isPrefixOf, String.data_append]
    unfold cleanDoi
    rw [hfind]
    show String.mk (("https://doi.org/" ++ X).data.drop
      "https://doi.org/".data.length) = X
    rw [String.data_append, List.drop_left]
  · have hfind : resolverHeads.find?
        (fun hd => hd.data.isPrefixOf ("http://dx.doi.org/" ++ X).data) =
        some "http://dx.doi.org/" := by
      simp [resolverHeads, List.find?, List.isPrefixOf, String.data_append]
    unfold cleanDoi
    rw [hfind]
    show String.mk (("http://dx.doi.org/" ++ X).data.drop
      "http://dx.doi.org/".data.length) = X
    rw [String.data_append, List.drop_left]
  · have hfind : resolverHeads.find?
        (fun hd => hd.data.isPrefixOf X.data) = none := by
      rw [List.find?_eq_none]
      intro hd hmem
      rw [h hd hmem]
      simp
    unfold cleanDoi
    rw [hfind]

/-- C7 witness: the theorem at a concrete bare DOI. -/
theorem C7_witness :
    (∀ hd ∈ resolverHeads,
      hd.data.isPrefixOf "10.1002/advs.202500123".data = false) ∧
    cleanDoi ("https://doi.org/" ++ "10.1002/advs.202500123") =
      "10.1002/advs.202500123" ∧
    cleanDoi ("http://dx.doi.org/" ++ "10.1002/advs.202500123") =
      "10.1002/advs.202500123" ∧
    cleanDoi "10.1002/advs.202500123" = "10.1002/advs.202500123" :=
  ⟨by decide, C7_holds "10.1002/advs.202500123" (by decide)⟩

/-- C8: for every prior mode, after `handleDownloadPdf` runs (container
present), whether the capture succeeded or failed, the mode equals the
prior mode and the exporting flag is cleared. -/
theorem C8_holds (s : ExportUIState) (captureOk : Bool) :
    (handleDownloadPdf true captureOk s).mode = s.mode ∧
    (handleDownloadPdf true captureOk s).isExporting = false := by
  cases captureOk <;> simp [handleDownloadPdf]

/-- C9: `generateVisualDescription` returns the fixed fallback whenever the
backend text is absent or empty, and it is an error exactly when the
underlying call itself threw (the thrown error is passed through). -/
theorem C9_holds (call : Except String TextGenResponse) :
    (∀ response, call = .ok response → response.text.getD "" = "" →
      generateVisualDescription call = .ok describeFallback) ∧
    (∀ e, generateVisualDescription call = .error e → call = .error e) ∧
    (∀ e, call = .error e → generateVisualDescription call = .error e) := by
  refine ⟨?_, ?_, ?_⟩
  · rintro ⟨text⟩ rfl h
    cases text with
    | none => rfl
    | some t =>
        have ht : t = "" := by simpa using h
        subst ht
        simp [generateVisualDescription, jsOrElse]
  · intro e hres
    cases call with
    | error e' =>
        have he : e' = e := by simpa [generateVisualDescription] using hres
        rw [he]
    | ok r => simp [generateVisualDescription] at hres
  · rintro e rfl
    rfl

/-- C9 witness: the theorem at a concrete empty-text response and a
concrete thrown transport error. -/
theorem C9_witness :
    generateVisualDescription (.ok { text := some "" }) = .ok describeFallback ∧
    generateVisualDescription (.error "network down") = .error "network down" :=
  ⟨(C9_holds (.ok { text := some "" })).1 { text := some "" } rfl rfl,
   (C9_holds (.error "network down")).2.2 "network down" rfl⟩

/-- C10: every successful image string from `generateCoverImage` or
`refineCoverImage` is the png data-URL head followed by the inline payload,
and `refineCoverImage`'s head-stripping applied to such a string recovers
exactly the payload. -/
theorem C10_holds (payload current instruction : String)
    (response : ImageGenResponse) :
    (∀ s, generateCoverImage response = .ok s → ∃ d, s = pngDataUrlHead ++ d) ∧
    (∀ s, refineCoverImage current instruction response = .ok s →
      ∃ d, s = pngDataUrlHead ++ d) ∧
    stripImageDataUrl (pngDataUrlHead ++ payload) = payload := by
  refine ⟨?_, ?_, ?_⟩
  · intro s hs
    unfold generateCoverImage at hs
    repeat' split at hs
    all_goals first
      | exact Except.noConfusion hs
      | (cases hs; exact ⟨_, rfl⟩)
  · intro s hs
    unfold refineCoverImage at hs
    repeat' split at hs
    all_goals first
      | exact Except.noConfusion hs
      | (cases hs; exact ⟨_, rfl⟩)
  · have h1 : "data:image/png;base64,".data.isPrefixOf
        ("data:image/png;base64," ++ payload).data = true := by
      simp [String.data_append, List.isPrefixOf]
    unfold stripImageDataUrl pngDataUrlHead
    simp only [h1, if_true]
    show String.mk (("data:image/png;base64," ++ payload).data.drop
      "data:image/png;base64,".data.length) = payload
    rw [String.data_append, List.drop_left]

/-- C10 witness: a concrete successful generation result wrapped and
stripped back to its payload. -/
theorem C10_witness :
    generateCoverImage okImageResponse = .ok (pngDataUrlHead ++ "PAYLOAD") ∧
    (∃ d, pngDataUrlHead ++ "PAYLOAD" = pngDataUrlHead ++ d) ∧
    stripImageDataUrl (pngDataUrlHead ++ "PAYLOAD") = "PAYLOAD" :=
  ⟨rfl,
   (C10_holds "PAYLOAD" "cur" "ins" okImageResponse).1 (pngDataUrlHead ++ "PAYLOAD") rfl,
   (C10_holds "PAYLOAD" "cur" "ins" okImageResponse).2.2⟩

end JournalCoverAI
